import Mathlib

/-!
Shallow embedding of the glimmer-grabber card-processing pipeline.

Each definition mirrors one function of the repository:
* `src/processing_service/tasks.py` (`process_image_task`, the celery retry
  policy of its decorator) and `src/processing_service/utils/file_utils.py`
  (`download_image_from_s3`, `is_image_processed`);
* `src/src/core/card_segmenter.py` (`segment_cards`, `identify_card_name`,
  `sanitize_filename`);
* `src/src/core/inference.py` (`run_inference`);
* `src/src/app/card_data_fetcher.py` (`CardDataFetcher`).

External effects (S3, the database session, the detector, Tesseract, the
HTTP client, the filesystem) are passed in as explicit values: an
`Except`-valued outcome for a call that may raise, a flag for an I/O step
that may fail, and record-of-lists states for the database and the cache
file.  Machine-level details (numpy arrays, actual SHA-256) are abstracted:
image bytes are `List Nat`, the hash is an explicit function parameter, and
the crop/mask payload of a detection is an opaque `Nat` tag.
-/

namespace GlimmerGrabber

/-! ### Processing-service job model (src/processing_service/tasks.py) -/

/-- Job status strings written by `process_image_task` (`"PENDING"`,
`"RUNNING"`, `"COMPLETED"`, `"FAILED"`). -/
inductive JobStatus
  | pending
  | running
  | completed
  | failed
deriving DecidableEq, Repr

/-- The slice of the relational state the task touches: the job row
(status, error message), the `processed_images` ledger (hashes), and the
`cards` table (contents, job-tagged). -/
structure TaskDB where
  jobStatus : JobStatus
  jobError : Option String
  processedHashes : List String
  cards : List String
deriving DecidableEq, Repr

/-- Outcomes of the external calls one task attempt makes:
`s3` is the result of `s3.get_object(...)["Body"].read()` (`.error` models
any raised exception), `processImage` models `process_image` on the
downloaded bytes, `extractData` models `extract_data` on the processed
data.  Processed data and card details are abstracted to lists. -/
structure TaskEnv where
  s3 : Except String (List Nat)
  processImage : List Nat → Except String (List Nat)
  extractData : List Nat → Except String (List String)

/-- `download_image_from_s3` (file_utils.py lines 9-25): returns the body
bytes; every exception is caught and the function returns `b""`. -/
def download_image_from_s3 (s3 : Except String (List Nat)) : List Nat :=
  match s3 with
  | .ok b => b
  | .error _ => []

/-- `is_image_processed` (file_utils.py lines 41-47): hashes the bytes and
checks whether a `ProcessedImage` row with that hash exists. -/
def is_image_processed (hash : List Nat → String) (imageBytes : List Nat)
    (db : TaskDB) : Bool :=
  decide (hash imageBytes ∈ db.processedHashes)

/-- The observable behaviour of one `process_image_task` attempt:
the sequence of `job.status` assignments it commits, the final database
state, whether `process_image` / `extract_data` were invoked, and whether
the attempt re-raised its exception (tasks.py line 76), which is what
drives the celery autoretry. -/
structure TaskTrace where
  statusWrites : List JobStatus
  finalDb : TaskDB
  ranProcess : Bool
  ranExtract : Bool
  raised : Bool
deriving DecidableEq, Repr

/-- `process_image_task` (tasks.py lines 21-76), one attempt.  Mirrors the
control flow: missing job returns with no writes; otherwise status is set
to RUNNING, the image is downloaded, the dedup ledger is consulted
(short-circuit to COMPLETED), else `process_image` and `extract_data` run,
cards and the `ProcessedImage` row are inserted and the job is COMPLETED;
a wrapped failure sets FAILED with the message and re-raises. -/
def process_image_task (hash : List Nat → String) (env : TaskEnv)
    (db : TaskDB) (jobFound : Bool) : TaskTrace :=
  if !jobFound then ⟨[], db, false, false, false⟩
  else
    let db1 : TaskDB := { db with jobStatus := .running }
    let imageBytes := download_image_from_s3 env.s3
    if is_image_processed hash imageBytes db1 then
      ⟨[.running, .completed], { db1 with jobStatus := .completed },
       false, false, false⟩
    else
      match env.processImage imageBytes with
      | .error e =>
          ⟨[.running, .failed],
           { db1 with jobStatus := .failed,
                      jobError := some ("Error processing image: " ++ e) },
           true, false, true⟩
      | .ok processedData =>
          match env.extractData processedData with
          | .error e =>
              ⟨[.running, .failed],
               { db1 with jobStatus := .failed,
                          jobError := some ("Error extracting data: " ++ e) },
               true, true, true⟩
          | .ok cardDetails =>
              ⟨[.running, .completed],
               { db1 with
                   cards := db1.cards ++ cardDetails,
                   processedHashes :=
                     db1.processedHashes ++ [hash imageBytes],
                   jobStatus := .completed },
               true, true, false⟩

/-- `max_retries=3` from the decorator on tasks.py line 20. -/
def MAX_RETRIES : Nat := 3

/-- `default_retry_delay=60` from the decorator on tasks.py line 20. -/
def DEFAULT_RETRY_DELAY : Nat := 60

/-- The celery driver induced by `@celery_app.task(autoretry_for=(Exception,),
max_retries=3, ...)` (tasks.py line 20): run an attempt; if it raised and
retries remain, run it again on the resulting state; count attempts.
`envs i` is the environment seen by attempt `i` (0-based).  Returns the
total number of attempts made and the final database state. -/
def celery_autoretry (hash : List Nat → String) (envs : Nat → TaskEnv)
    (jobFound : Bool) : Nat → Nat → TaskDB → Nat × TaskDB
  | attempt, 0, db =>
    ((attempt + 1),
     (process_image_task hash (envs attempt) db jobFound).finalDb)
  | attempt, r + 1, db =>
    let tr := process_image_task hash (envs attempt) db jobFound
    if !tr.raised then (attempt + 1, tr.finalDb)
    else celery_autoretry hash envs jobFound (attempt + 1) r tr.finalDb

/-- The task as delivered: first attempt plus up to `MAX_RETRIES`
autoretries. -/
def run_task_with_retries (hash : List Nat → String) (envs : Nat → TaskEnv)
    (jobFound : Bool) (db : TaskDB) : Nat × TaskDB :=
  celery_autoretry hash envs jobFound 0 MAX_RETRIES db

/-! ### Card segmenter (src/src/core/card_segmenter.py) -/

/-- One raw detection produced by the YOLO model: integer bounding box
(the Python code does `x1, y1, x2, y2 = map(int, current_bbox)`), the
optional confidence score, and an opaque tag standing for the mask /
cropped-image payload. -/
structure RawDetection where
  x1 : Int
  y1 : Int
  x2 : Int
  y2 : Int
  conf : Option ℚ
  payload : Nat
deriving DecidableEq, Repr

/-- The bbox-validation predicate of card_segmenter.py line 136:
`0 <= x1 < x2 <= image.shape[1] and 0 <= y1 < y2 <= image.shape[0]`,
expressed on a bbox 4-tuple (`width = shape[1]`, `height = shape[0]`). -/
def bbox4Valid (width height : Int) (b : Int × Int × Int × Int) : Bool :=
  0 ≤ b.1 && b.1 < b.2.2.1 && b.2.2.1 ≤ width &&
    0 ≤ b.2.1 && b.2.1 < b.2.2.2 && b.2.2.2 ≤ height

/-- Validity of a raw detection's bounding box. -/
def bboxValid (width height : Int) (d : RawDetection) : Bool :=
  bbox4Valid width height (d.x1, d.y1, d.x2, d.y2)

/-- One entry of the list `segment_cards` returns: the
`segmentation_info` dictionary with its bbox, confidence, OCR-identified
card name, and the opaque mask/crop payload. -/
structure SegmentationInfo where
  bbox : Int × Int × Int × Int
  confidence : Option ℚ
  cardName : String
  payload : Nat
deriving DecidableEq, Repr

/-- The per-detection loop of `segment_cards` (card_segmenter.py lines
120-164), given the detector's raw detections and the OCR outcome per
detection (`ocr` models `identify_card_name` on the crop).  An
out-of-bounds bbox is skipped with a warning (`continue`, lines 136-139);
a valid detection's record is appended **twice** (the duplicated
`segmentations.append(segmentation_info)` on lines 150 and 164).
Returns the `segmentations` list and the number of warnings logged. -/
def segment_cards (ocr : RawDetection → String) (width height : Int) :
    List RawDetection → List SegmentationInfo × Nat
  | [] => ([], 0)
  | d :: rest =>
    let tail := segment_cards ocr width height rest
    if bboxValid width height d then
      let info : SegmentationInfo :=
        ⟨(d.x1, d.y1, d.x2, d.y2), d.conf, ocr d, d.payload⟩
      (info :: info :: tail.1, tail.2)
    else
      (tail.1, tail.2 + 1)

/-! ### Inference-time confidence filtering (src/src/core/inference.py) -/

/-- The confidence-filtering part of `run_inference` (inference.py lines
45-70) applied to the segmenter's results `D`: empty results return `[]`
(line 47); otherwise the list comprehension keeps results with
`result.get("confidence", 0.0) >= confidence_threshold`.  If any result
carries `confidence = None`, Python's `None >= threshold` raises a
`TypeError`, which the `except Exception` handler (lines 68-70) turns
into `[]`; this is the `all isSome` guard. -/
def run_inference (D : List SegmentationInfo) (t : ℚ) :
    List SegmentationInfo :=
  if D.isEmpty then []
  else if D.all (fun r => r.confidence.isSome) then
    D.filter (fun r => t ≤ r.confidence.getD 0)
  else []

/-! ### OCR identification (card_segmenter.py, identify_card_name) -/

/-- Outcome of the Tesseract call inside `identify_card_name`: the raw
extracted text, a `TesseractNotFoundError`, or any other exception. -/
inductive OcrOutcome
  | text (raw : String)
  | tesseractNotFound
  | otherError (msg : String)
deriving DecidableEq, Repr

/-- Python's `str.strip()` on the OCR output: drop whitespace from both
ends. -/
def pyStrip (s : String) : String :=
  String.mk
    (((s.toList.dropWhile Char.isWhitespace).reverse.dropWhile
        Char.isWhitespace).reverse)

/-- `identify_card_name` (card_segmenter.py lines 181-266), with the
image-preprocessing steps abstracted away (they do not affect which
branch returns): an empty segment (`image.size == 0`) returns
`"Unknown Card (Empty Segment)"`; otherwise the stripped OCR text is
returned if non-empty, else `"Unknown Card"`; `TesseractNotFoundError`
returns `"Error: Tesseract Not Found"`; any other OCR exception returns
`"Error Identifying Card Name"`. -/
def identify_card_name (segmentSize : Nat) (ocr : OcrOutcome) : String :=
  if segmentSize = 0 then "Unknown Card (Empty Segment)"
  else
    match ocr with
    | .text raw =>
        let t := pyStrip raw
        if t = "" then "Unknown Card" else t
    | .tesseractNotFound => "Error: Tesseract Not Found"
    | .otherError _ => "Error Identifying Card Name"

/-! ### Card data fetcher (src/src/app/card_data_fetcher.py) -/

/-- A JSON object (one card entry): an association list of fields.  Field
values are abstracted to strings. -/
abbrev CardEntry := List (String × String)

/-- One element of a JSON array: either an object or something else (the
Python code skips / rejects non-dict elements). -/
inductive JsonItem
  | dict (c : CardEntry)
  | nonDict (tag : Nat)
deriving DecidableEq, Repr

/-- Outcome of the remote API call (`requests.get` + `response.json()`,
card_data_fetcher.py lines 274-284): a `requests.RequestException`, a
`json.JSONDecodeError`, a decoded JSON array, or decoded JSON whose top
level is not a list. -/
inductive ApiOutcome
  | requestError (msg : String)
  | decodeError (msg : String)
  | arrayPayload (items : List JsonItem)
  | nonArrayPayload (tag : Nat)
deriving DecidableEq, Repr

/-- The error taxonomy of src/src/app/exceptions.py used by the fetcher. -/
inductive FetchError
  | apiFetchError (msg : String)
  | cacheError (msg : String)
  | dataFormatError (msg : String)
deriving DecidableEq, Repr

/-- State of the cache file: its parsed contents (`none` when the file
does not exist) and its modification time. -/
structure FetcherState where
  cacheFile : Option (List JsonItem)
  cacheMTime : Nat
deriving DecidableEq, Repr

/-- Environment of one `fetch_card_data` call: the current time, whether
opening/parsing the cache file succeeds (`readOk = false` models an
I/O or JSON-decode failure in `_load_from_cache`), whether writing the
cache file succeeds (`saveOk = false` models an I/O failure in
`_save_to_cache`), and the API outcome were the network consulted. -/
structure FetchEnv where
  now : Nat
  readOk : Bool
  saveOk : Bool
  api : ApiOutcome
deriving DecidableEq, Repr

/-- Result of one call: the returned data or raised error, the resulting
cache-file state, and how many network requests were made. -/
structure FetchResult where
  result : Except FetchError (List CardEntry)
  state : FetcherState
  networkCalls : Nat
deriving Repr

/-- `_validate_card_data_entry` (lines 200-219): the entry must carry the
required fields `name`, `type` and `set`. -/
def validate_card_data_entry (c : CardEntry) : Bool :=
  (c.map Prod.fst).contains "name" && (c.map Prod.fst).contains "type" &&
    (c.map Prod.fst).contains "set"

/-- `card.get("name")`: first value bound to the key, if any. -/
def cardGetName (c : CardEntry) : Option String :=
  List.lookup "name" c

/-- The name filter applied at the end of both branches of
`_load_and_validate_data` (lines 259-265 and 304-309): empty `card_names`
returns everything, otherwise keep cards whose `get("name")` is among the
requested names. -/
def filterByNames (names : List String) (cards : List CardEntry) :
    List CardEntry :=
  if names.isEmpty then cards
  else
    cards.filter (fun c =>
      match cardGetName c with
      | some n => names.contains n
      | none => false)

/-- `_is_cache_valid` (lines 74-103): the cache file exists and
`now - mtime < cache_duration`. -/
def is_cache_valid (duration : Nat) (now : Nat) (st : FetcherState) : Bool :=
  st.cacheFile.isSome && (now - st.cacheMTime < duration)

/-- Keep the JSON-object elements of an array, as card entries. -/
def dictItems (items : List JsonItem) : List CardEntry :=
  items.filterMap (fun it =>
    match it with
    | .dict c => some c
    | .nonDict _ => none)

/-- The API branch of `_load_and_validate_data` (lines 272-317): one GET;
a request failure raises `APIFetchError`, undecodable or non-array JSON
raises `DataFormatError`; non-dict elements are skipped, entries failing
field validation are dropped; the validated list is written to the cache
file (a write failure raises `CacheError`, line 301 via `_save_to_cache`);
the validated list, name-filtered, is returned. -/
def fetch_from_api (names : List String) (env : FetchEnv)
    (st : FetcherState) : FetchResult :=
  match env.api with
  | .requestError m => ⟨.error (.apiFetchError ("API request failed: " ++ m)), st, 1⟩
  | .decodeError m =>
      ⟨.error (.dataFormatError ("Failed to decode JSON from API response: " ++ m)), st, 1⟩
  | .nonArrayPayload _ =>
      ⟨.error (.dataFormatError "Invalid data format from API: Expected a list."), st, 1⟩
  | .arrayPayload items =>
      let validated := (dictItems items).filter validate_card_data_entry
      if env.saveOk then
        ⟨.ok (filterByNames names validated),
         ⟨some (validated.map .dict), env.now⟩, 1⟩
      else
        ⟨.error (.cacheError "Error saving to cache file"), st, 1⟩

/-- `_load_and_validate_data` (lines 221-317).  When the cache is valid it
is loaded: a read/parse failure (`CacheError`) or a non-dict element
(`DataFormatError`) is caught on lines 266-268 and control falls through
to the API fetch; otherwise the cached entries are re-validated,
name-filtered and returned with no network call.  When the cache is
missing/expired, or loading it failed, the API branch runs. -/
def load_and_validate_data (duration : Nat) (names : List String)
    (env : FetchEnv) (st : FetcherState) : FetchResult :=
  if is_cache_valid duration env.now st then
    match env.readOk, st.cacheFile with
    | true, some items =>
        if items.all (fun it =>
            match it with
            | .dict _ => true
            | .nonDict _ => false) then
          let validated := (dictItems items).filter validate_card_data_entry
          ⟨.ok (filterByNames names validated), st, 0⟩
        else fetch_from_api names env st
    | _, _ => fetch_from_api names env st
  else fetch_from_api names env st

/-- `fetch_card_data` (lines 161-198): delegates to
`_load_and_validate_data`; the known error classes are re-raised
unchanged, so the wrapper is the identity on this model. -/
def fetch_card_data (duration : Nat) (names : List String)
    (env : FetchEnv) (st : FetcherState) : FetchResult :=
  load_and_validate_data duration names env st

/-! ### Filename sanitisation (card_segmenter.py, sanitize_filename) -/

/-- The character class `[a-zA-Z0-9_.-]` of the first `re.sub` in
`sanitize_filename` (line 344). -/
def allowedFilenameChar (c : Char) : Bool :=
  c.isAlphanum || c = '_' || c = '.' || c = '-'

/-- `re.sub(r"[^a-zA-Z0-9_.-]", "_", s)` (line 344). -/
def replaceDisallowed (l : List Char) : List Char :=
  l.map (fun c => if allowedFilenameChar c then c else '_')

/-- Helper for `re.sub(r"__+", "_", s)`: `prevUnderscore` records whether
the previously emitted character was an underscore, in which case further
underscores of the same run are dropped. -/
def collapseAux : Bool → List Char → List Char
  | _, [] => []
  | prevUnderscore, c :: rest =>
    if c == '_' then
      if prevUnderscore then collapseAux true rest
      else '_' :: collapseAux true rest
    else c :: collapseAux false rest

/-- `re.sub(r"__+", "_", s)` (line 346): collapse every maximal run of
two or more underscores into a single underscore. -/
def collapseUnderscores (l : List Char) : List Char :=
  collapseAux false l

/-- The strip set of `s.strip('_.-')` (line 348). -/
def stripSetChar (c : Char) : Bool :=
  c = '_' || c = '.' || c = '-'

/-- `s.strip('_.-')` (line 348): remove the given characters from both
ends. -/
def stripEnds (l : List Char) : List Char :=
  ((l.dropWhile stripSetChar).reverse.dropWhile stripSetChar).reverse

/-- `max_length = 200` (line 341). -/
def MAX_FILENAME_LENGTH : Nat := 200

/-- `sanitize_filename` (card_segmenter.py lines 321-355). -/
def sanitize_filename (s : String) : String :=
  let s1 := collapseUnderscores (replaceDisallowed s.toList)
  let s2 := stripEnds s1
  let s3 := if s2.isEmpty then "invalid_name".toList else s2
  String.mk (s3.take MAX_FILENAME_LENGTH)

/-! ## Theorems -/

/-- C1: hashing the downloaded bytes is deterministic, and when the hash
already has a `ProcessedImage` row in the ledger the task sets the job
directly to COMPLETED and returns without running image processing, data
extraction, or card insertion, and without inserting a second
`ProcessedImage` row for that hash. -/
theorem process_image_task_dedup_short_circuit
    (hash : List Nat → String) (env : TaskEnv) (db : TaskDB)
    (hmem : hash (download_image_from_s3 env.s3) ∈ db.processedHashes) :
    (∀ b1 b2 : List Nat, b1 = b2 → hash b1 = hash b2) ∧
    (process_image_task hash env db true).statusWrites =
      [.running, .completed] ∧
    (process_image_task hash env db true).finalDb.jobStatus = .completed ∧
    (process_image_task hash env db true).ranProcess = false ∧
    (process_image_task hash env db true).ranExtract = false ∧
    (process_image_task hash env db true).finalDb.cards = db.cards ∧
    (process_image_task hash env db true).finalDb.processedHashes =
      db.processedHashes := by
  have htask : process_image_task hash env db true =
      ⟨[.running, .completed],
       { db with jobStatus := .completed }, false, false, false⟩ := by
    simp [process_image_task, is_image_processed, hmem]
  refine ⟨fun b1 b2 h => by rw [h], ?_, ?_, ?_, ?_, ?_, ?_⟩ <;>
    simp [htask]

/-- Witness for C1 at a concrete hash, environment and database. -/
theorem process_image_task_dedup_short_circuit_witness :
    (∀ b1 b2 : List Nat, b1 = b2 →
      (fun _ : List Nat => "h") b1 = (fun _ : List Nat => "h") b2) ∧
    (process_image_task (fun _ => "h")
      ⟨.ok [1, 2], fun _ => .ok [], fun _ => .ok []⟩
      ⟨.pending, none, ["h"], ["c"]⟩ true).statusWrites =
        [.running, .completed] ∧
    (process_image_task (fun _ => "h")
      ⟨.ok [1, 2], fun _ => .ok [], fun _ => .ok []⟩
      ⟨.pending, none, ["h"], ["c"]⟩ true).finalDb.jobStatus = .completed ∧
    (process_image_task (fun _ => "h")
      ⟨.ok [1, 2], fun _ => .ok [], fun _ => .ok []⟩
      ⟨.pending, none, ["h"], ["c"]⟩ true).ranProcess = false ∧
    (process_image_task (fun _ => "h")
      ⟨.ok [1, 2], fun _ => .ok [], fun _ => .ok []⟩
      ⟨.pending, none, ["h"], ["c"]⟩ true).ranExtract = false ∧
    (process_image_task (fun _ => "h")
      ⟨.ok [1, 2], fun _ => .ok [], fun _ => .ok []⟩
      ⟨.pending, none, ["h"], ["c"]⟩ true).finalDb.cards =
        (⟨.pending, none, ["h"], ["c"]⟩ : TaskDB).cards ∧
    (process_image_task (fun _ => "h")
      ⟨.ok [1, 2], fun _ => .ok [], fun _ => .ok []⟩
      ⟨.pending, none, ["h"], ["c"]⟩ true).finalDb.processedHashes =
        (⟨.pending, none, ["h"], ["c"]⟩ : TaskDB).processedHashes :=
  process_image_task_dedup_short_circuit (fun _ => "h")
    ⟨.ok [1, 2], fun _ => .ok [], fun _ => .ok []⟩
    ⟨.pending, none, ["h"], ["c"]⟩ (by decide)

/-- C2 counterexample: invoked on a job whose status is already terminal
(FAILED) — as the celery autoretry does after a failed attempt — the task
moves the job back to RUNNING (its first status write), refuting the
claim that a terminal job is never moved back to RUNNING. -/
theorem terminal_job_moved_back_to_running_cex :
    (⟨JobStatus.failed, none, [], []⟩ : TaskDB).jobStatus = .failed ∧
    (process_image_task (fun _ => "h")
        ⟨.ok [1], fun _ => .ok [], fun _ => .ok []⟩
        ⟨JobStatus.failed, none, [], []⟩ true).statusWrites.head? =
      some .running :=
  ⟨rfl, rfl⟩

/-- C2 amended: within a single task invocation on an existing job, the
status writes are exactly RUNNING followed by one terminal status, so the
forward discipline holds per invocation; the task never checks the
current status first, so the guarantee is per invocation, not per job. -/
theorem task_status_writes_forward_per_invocation
    (hash : List Nat → String) (env : TaskEnv) (db : TaskDB) :
    (process_image_task hash env db true).statusWrites =
      [.running, .completed] ∨
    (process_image_task hash env db true).statusWrites =
      [.running, .failed] := by
  cases h1 : is_image_processed hash (download_image_from_s3 env.s3)
      { db with jobStatus := .running } with
  | true => left; simp [process_image_task, h1]
  | false =>
    cases h2 : env.processImage (download_image_from_s3 env.s3) with
    | error e => right; simp [process_image_task, h1, h2]
    | ok pd =>
      cases h3 : env.extractData pd with
      | error e => right; simp [process_image_task, h1, h2, h3]
      | ok cds => left; simp [process_image_task, h1, h2, h3]

/-- C3 counterexample: a deterministic failure (`process_image` raises
"corrupt image" on every attempt) is autoretried — the driver makes 4
attempts (`max_retries = 3` retries after the first attempt), not 1, and
only then leaves the job FAILED; this refutes both "not retried / FAILED
immediately on the first attempt" and "exactly `max_retries` attempts". -/
theorem deterministic_failure_retried_cex :
    (run_task_with_retries (fun _ => "h")
        (fun _ => ⟨.ok [1], fun _ => .error "corrupt image", fun _ => .ok []⟩)
        true ⟨.pending, none, [], []⟩).1 = 4 ∧
    (run_task_with_retries (fun _ => "h")
        (fun _ => ⟨.ok [1], fun _ => .error "corrupt image", fun _ => .ok []⟩)
        true ⟨.pending, none, [], []⟩).2.jobStatus = .failed ∧
    (run_task_with_retries (fun _ => "h")
        (fun _ => ⟨.ok [1], fun _ => .error "corrupt image", fun _ => .ok []⟩)
        true ⟨.pending, none, [], []⟩).2.jobError =
      some "Error processing image: corrupt image" :=
  ⟨rfl, rfl, rfl⟩

/-- Every attempt of a task whose `process_image` always fails leaves the
job FAILED and re-raises, so the celery driver retries until the retry
budget is exhausted: `a + r + 1` total attempts when starting at attempt
`a` with `r` retries left. -/
theorem celery_autoretry_all_fail
    (hash : List Nat → String) (envs : Nat → TaskEnv) (r : Nat) :
    ∀ (a : Nat) (db : TaskDB),
    (∀ i, hash (download_image_from_s3 (envs i).s3) ∉ db.processedHashes ∧
      ∃ e, (envs i).processImage (download_image_from_s3 (envs i).s3) =
        .error e) →
    (celery_autoretry hash envs true a r db).1 = a + r + 1 ∧
    (celery_autoretry hash envs true a r db).2.jobStatus = .failed ∧
    ∃ e, (celery_autoretry hash envs true a r db).2.jobError =
      some ("Error processing image: " ++ e) := by
  induction r with
  | zero =>
    intro a db hfail
    obtain ⟨hmem, e, he⟩ := hfail a
    have htask : process_image_task hash (envs a) db true =
        ⟨[.running, .failed],
         { db with jobStatus := .failed,
                   jobError := some ("Error processing image: " ++ e) },
         true, false, true⟩ := by
      simp [process_image_task, is_image_processed, hmem, he]
    simp [celery_autoretry, htask]
  | succ r ih =>
    intro a db hfail
    obtain ⟨hmem, e, he⟩ := hfail a
    have htask : process_image_task hash (envs a) db true =
        ⟨[.running, .failed],
         { db with jobStatus := .failed,
                   jobError := some ("Error processing image: " ++ e) },
         true, false, true⟩ := by
      simp [process_image_task, is_image_processed, hmem, he]
    have hrec := ih (a + 1)
      { db with jobStatus := .failed,
                jobError := some ("Error processing image: " ++ e) }
      (fun i => hfail i)
    rw [celery_autoretry, htask]
    simp only [Bool.not_true, Bool.false_eq_true, if_false]
    refine ⟨by omega, hrec.2.1, hrec.2.2⟩

/-- C3 amended: the decorator `autoretry_for=(Exception,)` retries every
task failure alike — deterministic ones included — with a fixed delay; a
job that fails on each attempt is attempted `max_retries + 1 = 4` times in
total and ends FAILED with the category prefix ("Error processing image:")
in its error message.  No category distinction exists: transient S3
download errors are even swallowed inside `download_image_from_s3`
(returning empty bytes) rather than raised. -/
theorem task_autoretries_all_failures
    (hash : List Nat → String) (envs : Nat → TaskEnv) (db : TaskDB)
    (hfail : ∀ i, hash (download_image_from_s3 (envs i).s3) ∉
        db.processedHashes ∧
      ∃ e, (envs i).processImage (download_image_from_s3 (envs i).s3) =
        .error e) :
    (run_task_with_retries hash envs true db).1 = MAX_RETRIES + 1 ∧
    (run_task_with_retries hash envs true db).2.jobStatus = .failed ∧
    ∃ e, (run_task_with_retries hash envs true db).2.jobError =
      some ("Error processing image: " ++ e) := by
  have h := celery_autoretry_all_fail hash envs MAX_RETRIES 0 db hfail
  exact ⟨by rw [run_task_with_retries, h.1]; omega, h.2.1, h.2.2⟩

/-- Witness for the amended C3 at a concrete always-failing environment. -/
theorem task_autoretries_all_failures_witness :
    (run_task_with_retries (fun _ => "h")
        (fun _ => ⟨.ok [1], fun _ => .error "bad header", fun _ => .ok []⟩)
        true ⟨.pending, none, [], []⟩).1 = MAX_RETRIES + 1 ∧
    (run_task_with_retries (fun _ => "h")
        (fun _ => ⟨.ok [1], fun _ => .error "bad header", fun _ => .ok []⟩)
        true ⟨.pending, none, [], []⟩).2.jobStatus = .failed ∧
    ∃ e, (run_task_with_retries (fun _ => "h")
        (fun _ => ⟨.ok [1], fun _ => .error "bad header", fun _ => .ok []⟩)
        true ⟨.pending, none, [], []⟩).2.jobError =
      some ("Error processing image: " ++ e) :=
  task_autoretries_all_failures (fun _ => "h")
    (fun _ => ⟨.ok [1], fun _ => .error "bad header", fun _ => .ok []⟩)
    ⟨.pending, none, [], []⟩
    (fun _ => ⟨List.not_mem_nil _, "bad header", rfl⟩)

/-- C4: evaluating `segment_cards` on two detections whose bounding boxes
lie fully inside a 100×100 image.  Both boxes validate, yet the returned
list has 4 entries, not 2: the loop body appends `segmentation_info`
twice (the duplicated `segmentations.append` on card_segmenter.py lines
150 and 164), so every valid detection is recorded twice. -/
theorem segment_cards_two_detections_four_entries :
    bboxValid 100 100 ⟨0, 0, 10, 10, some 1, 0⟩ = true ∧
    bboxValid 100 100 ⟨20, 20, 30, 30, some 1, 1⟩ = true ∧
    (segment_cards (fun _ => "Card") 100 100
        [⟨0, 0, 10, 10, some 1, 0⟩, ⟨20, 20, 30, 30, some 1, 1⟩]).1.length =
      4 :=
  ⟨rfl, rfl, rfl⟩

/-- Every entry `segment_cards` returns carries a bounding box that
passed the in-bounds validation. -/
theorem segment_cards_output_bboxes_valid
    (ocr : RawDetection → String) (w h : Int) :
    ∀ l : List RawDetection,
      ∀ s ∈ (segment_cards ocr w h l).1, bbox4Valid w h s.bbox = true := by
  intro l
  induction l with
  | nil => intro s hs; simp [segment_cards] at hs
  | cons d rest ih =>
    intro s hs
    cases hv : bboxValid w h d with
    | true =>
      rw [segment_cards] at hs
      simp only [hv, if_true] at hs
      rcases List.mem_cons.mp hs with h1 | hs2
      · subst h1; exact hv
      · rcases List.mem_cons.mp hs2 with h1 | h3
        · subst h1; exact hv
        · exact ih s h3
    | false =>
      rw [segment_cards] at hs
      simp only [hv, if_false] at hs
      exact ih s hs

/-- Inserting a detection with an invalid bounding box anywhere in the
detector's output changes nothing in the returned list and adds exactly
one warning. -/
theorem segment_cards_insert_invalid
    (ocr : RawDetection → String) (w h : Int) (ys : List RawDetection)
    (bad : RawDetection) (hbad : bboxValid w h bad = false) :
    ∀ xs : List RawDetection,
      (segment_cards ocr w h (xs ++ bad :: ys)).1 =
        (segment_cards ocr w h (xs ++ ys)).1 ∧
      (segment_cards ocr w h (xs ++ bad :: ys)).2 =
        (segment_cards ocr w h (xs ++ ys)).2 + 1 := by
  intro xs
  induction xs with
  | nil => simp [segment_cards, hbad]
  | cons x xs ih =>
    cases hv : bboxValid w h x with
    | true =>
      constructor <;>
        simp [segment_cards, hv, ih.1, ih.2]
    | false =>
      constructor <;>
        simp [segment_cards, hv, ih.1, ih.2]

/-- C6: a detection whose bounding box is not fully inside the image is
dropped: the returned list is exactly the one produced without it (the
remaining detections are processed unaffected), one warning is logged for
it, the function returns normally, and no returned entry carries the
invalid bbox. -/
theorem segment_cards_drops_invalid_bbox
    (ocr : RawDetection → String) (w h : Int) (xs ys : List RawDetection)
    (bad : RawDetection) (hbad : bboxValid w h bad = false) :
    (segment_cards ocr w h (xs ++ bad :: ys)).1 =
      (segment_cards ocr w h (xs ++ ys)).1 ∧
    (segment_cards ocr w h (xs ++ bad :: ys)).2 =
      (segment_cards ocr w h (xs ++ ys)).2 + 1 ∧
    ∀ s ∈ (segment_cards ocr w h (xs ++ bad :: ys)).1,
      s.bbox ≠ (bad.x1, bad.y1, bad.x2, bad.y2) := by
  obtain ⟨h1, h2⟩ := segment_cards_insert_invalid ocr w h ys bad hbad xs
  refine ⟨h1, h2, fun s hs hbb => ?_⟩
  have hv := segment_cards_output_bboxes_valid ocr w h (xs ++ bad :: ys) s hs
  rw [hbb] at hv
  rw [bboxValid] at hbad
  rw [hv] at hbad
  exact absurd hbad (by simp)

/-- Witness for C6: a detection with `x2 = 120 > image_width = 100` is
dropped from the output of `segment_cards` while its valid sibling is
kept. -/
theorem segment_cards_drops_invalid_bbox_witness :
    (segment_cards (fun _ => "Card") 100 100
        [⟨0, 0, 10, 10, some 1, 0⟩, ⟨0, 0, 120, 10, some 1, 1⟩]).1 =
      (segment_cards (fun _ => "Card") 100 100
        [⟨0, 0, 10, 10, some 1, 0⟩]).1 ∧
    (segment_cards (fun _ => "Card") 100 100
        [⟨0, 0, 10, 10, some 1, 0⟩, ⟨0, 0, 120, 10, some 1, 1⟩]).2 =
      (segment_cards (fun _ => "Card") 100 100
        [⟨0, 0, 10, 10, some 1, 0⟩]).2 + 1 ∧
    ∀ s ∈ (segment_cards (fun _ => "Card") 100 100
        [⟨0, 0, 10, 10, some 1, 0⟩, ⟨0, 0, 120, 10, some 1, 1⟩]).1,
      s.bbox ≠ ((⟨0, 0, 120, 10, some 1, 1⟩ : RawDetection).x1,
        (⟨0, 0, 120, 10, some 1, 1⟩ : RawDetection).y1,
        (⟨0, 0, 120, 10, some 1, 1⟩ : RawDetection).x2,
        (⟨0, 0, 120, 10, some 1, 1⟩ : RawDetection).y2) :=
  segment_cards_drops_invalid_bbox (fun _ => "Card") 100 100
    [⟨0, 0, 10, 10, some 1, 0⟩] [] ⟨0, 0, 120, 10, some 1, 1⟩ (by decide)

/-- C5: on detection lists whose entries all carry a confidence score,
`run_inference` returns exactly the detections with
`confidence ≥ threshold`: it equals `filter`, it is a sublist of the
input (original order preserved), and membership is exactly
"in the input with confidence at least the threshold". -/
theorem run_inference_confidence_filter
    (D : List SegmentationInfo) (t : ℚ)
    (hconf : ∀ d ∈ D, d.confidence.isSome) :
    run_inference D t =
      D.filter (fun d => decide (t ≤ d.confidence.getD 0)) ∧
    (run_inference D t).Sublist D ∧
    ∀ d, d ∈ run_inference D t ↔ d ∈ D ∧ t ≤ d.confidence.getD 0 := by
  have heq : run_inference D t =
      D.filter (fun d => decide (t ≤ d.confidence.getD 0)) := by
    cases D with
    | nil => simp [run_inference]
    | cons d rest =>
      have hall : (d :: rest).all (fun r => r.confidence.isSome) = true := by
        rw [List.all_eq_true]
        exact fun x hx => hconf x hx
      simp [run_inference, hall]
  refine ⟨heq, ?_, ?_⟩
  · rw [heq]; exact List.filter_sublist D
  · intro d
    rw [heq, List.mem_filter]
    simp

/-- Witness for C5 at a threshold of 1 over one passing and one failing
detection. -/
theorem run_inference_confidence_filter_witness :
    run_inference [⟨(0, 0, 1, 1), some 1, "A", 0⟩,
        ⟨(0, 0, 2, 2), some 0, "B", 1⟩] 1 =
      List.filter (fun d => decide (1 ≤ d.confidence.getD 0))
        [⟨(0, 0, 1, 1), some 1, "A", 0⟩, ⟨(0, 0, 2, 2), some 0, "B", 1⟩] ∧
    (run_inference [⟨(0, 0, 1, 1), some 1, "A", 0⟩,
        ⟨(0, 0, 2, 2), some 0, "B", 1⟩] 1).Sublist
      [⟨(0, 0, 1, 1), some 1, "A", 0⟩, ⟨(0, 0, 2, 2), some 0, "B", 1⟩] ∧
    ∀ d, d ∈ run_inference [⟨(0, 0, 1, 1), some 1, "A", 0⟩,
        ⟨(0, 0, 2, 2), some 0, "B", 1⟩] 1 ↔
      d ∈ [⟨(0, 0, 1, 1), some 1, "A", 0⟩,
        ⟨(0, 0, 2, 2), some 0, "B", 1⟩] ∧ 1 ≤ d.confidence.getD 0 :=
  run_inference_confidence_filter
    [⟨(0, 0, 1, 1), some 1, "A", 0⟩, ⟨(0, 0, 2, 2), some 0, "B", 1⟩] 1
    (by decide)

/-- Every branch of the API path of `_load_and_validate_data` makes
exactly one network request. -/
theorem fetch_from_api_one_network_call (names : List String)
    (env : FetchEnv) (st : FetcherState) :
    (fetch_from_api names env st).networkCalls = 1 := by
  obtain ⟨now, ro, so, api⟩ := env
  cases api <;> cases so <;> rfl

/-- C7: when the first `fetch_card_data([])` call finds no valid cache,
fetches a JSON array from the API and writes the validated data to the
cache, a second call within `cache_duration` returns the same result and
makes zero network requests: the written cache re-validates to itself. -/
theorem fetch_card_data_second_call_cached
    (dur : Nat) (env1 env2 : FetchEnv) (st0 : FetcherState)
    (items : List JsonItem)
    (h0 : is_cache_valid dur env1.now st0 = false)
    (hapi : env1.api = .arrayPayload items)
    (hsave : env1.saveOk = true)
    (hread : env2.readOk = true)
    (hfresh : env2.now - env1.now < dur) :
    (fetch_card_data dur [] env1 st0).networkCalls = 1 ∧
    (fetch_card_data dur [] env2
        (fetch_card_data dur [] env1 st0).state).networkCalls = 0 ∧
    (fetch_card_data dur [] env2
        (fetch_card_data dur [] env1 st0).state).result =
      (fetch_card_data dur [] env1 st0).result ∧
    ∃ cards, (fetch_card_data dur [] env1 st0).result = .ok cards := by
  have hval : ∀ x ∈ (dictItems items).filter validate_card_data_entry,
      validate_card_data_entry x = true := fun x hx => List.of_mem_filter hx
  set validated := (dictItems items).filter validate_card_data_entry with hv
  have hr1 : fetch_card_data dur [] env1 st0 =
      ⟨.ok validated, ⟨some (validated.map .dict), env1.now⟩, 1⟩ := by
    simp [fetch_card_data, load_and_validate_data, h0, fetch_from_api,
      hapi, hsave, filterByNames, hv]
  have hvalid2 : is_cache_valid dur env2.now
      ⟨some (validated.map .dict), env1.now⟩ = true := by
    simp [is_cache_valid, hfresh]
  have halldict : (validated.map JsonItem.dict).all
      (fun it => match it with
        | .dict _ => true
        | .nonDict _ => false) = true := by
    simp [List.all_eq_true]
  have hdict : dictItems (validated.map JsonItem.dict) = validated := by
    simp [dictItems, List.filterMap_map, Function.comp_def,
      List.filterMap_some]
  have hfilt : validated.filter validate_card_data_entry = validated :=
    List.filter_eq_self.mpr hval
  have hr2 : fetch_card_data dur [] env2
      ⟨some (validated.map .dict), env1.now⟩ =
      ⟨.ok validated, ⟨some (validated.map .dict), env1.now⟩, 0⟩ := by
    simp [fetch_card_data, load_and_validate_data, hvalid2, hread,
      halldict, hdict, hfilt, filterByNames]
  rw [hr1]
  exact ⟨rfl, by rw [hr2], by rw [hr2], ⟨validated, rfl⟩⟩

/-- Witness for C7: the second call is served from the cache written by
the first — its API outcome is a network failure, which would surface as
an `APIFetchError` had any request been made. -/
theorem fetch_card_data_second_call_cached_witness :
    (fetch_card_data 100 [] ⟨0, true, true, .arrayPayload
        [.dict [("name", "n"), ("type", "t"), ("set", "s")]]⟩
      ⟨none, 0⟩).networkCalls = 1 ∧
    (fetch_card_data 100 [] ⟨50, true, true, .requestError "net down"⟩
        (fetch_card_data 100 [] ⟨0, true, true, .arrayPayload
            [.dict [("name", "n"), ("type", "t"), ("set", "s")]]⟩
          ⟨none, 0⟩).state).networkCalls = 0 ∧
    (fetch_card_data 100 [] ⟨50, true, true, .requestError "net down"⟩
        (fetch_card_data 100 [] ⟨0, true, true, .arrayPayload
            [.dict [("name", "n"), ("type", "t"), ("set", "s")]]⟩
          ⟨none, 0⟩).state).result =
      (fetch_card_data 100 [] ⟨0, true, true, .arrayPayload
          [.dict [("name", "n"), ("type", "t"), ("set", "s")]]⟩
        ⟨none, 0⟩).result ∧
    ∃ cards, (fetch_card_data 100 [] ⟨0, true, true, .arrayPayload
        [.dict [("name", "n"), ("type", "t"), ("set", "s")]]⟩
      ⟨none, 0⟩).result = .ok cards :=
  fetch_card_data_second_call_cached 100
    ⟨0, true, true, .arrayPayload
      [.dict [("name", "n"), ("type", "t"), ("set", "s")]]⟩
    ⟨50, true, true, .requestError "net down"⟩ ⟨none, 0⟩
    [.dict [("name", "n"), ("type", "t"), ("set", "s")]]
    rfl rfl rfl rfl (by decide)

/-- C8: a failure to read/parse the cache file is caught and the call
falls through to the API branch (one network request, no `CacheError`
surfaced from the read), whereas a failure to write the refreshed data
surfaces to the caller as a `CacheError`. -/
theorem cache_read_error_falls_through_write_error_propagates
    (dur : Nat) (names : List String) (env : FetchEnv) (st : FetcherState)
    (hread : env.readOk = false) :
    load_and_validate_data dur names env st = fetch_from_api names env st ∧
    (load_and_validate_data dur names env st).networkCalls = 1 ∧
    ∀ items, env.api = .arrayPayload items → env.saveOk = false →
      (load_and_validate_data dur names env st).result =
        .error (.cacheError "Error saving to cache file") := by
  have h1 : load_and_validate_data dur names env st =
      fetch_from_api names env st := by
    unfold load_and_validate_data
    cases hc : is_cache_valid dur env.now st <;> simp [hc, hread]
  refine ⟨h1, ?_, ?_⟩
  · rw [h1]
    exact fetch_from_api_one_network_call names env st
  · intro items hapi hsave
    rw [h1]
    simp [fetch_from_api, hapi, hsave]

/-- Witness for C8 at a present-but-unreadable cache file and a failing
cache write. -/
theorem cache_read_error_falls_through_write_error_propagates_witness :
    load_and_validate_data 10 []
        ⟨0, false, false, .arrayPayload
          [.dict [("name", "n"), ("type", "t"), ("set", "s")]]⟩
        ⟨some [.dict [("name", "n")]], 0⟩ =
      fetch_from_api []
        ⟨0, false, false, .arrayPayload
          [.dict [("name", "n"), ("type", "t"), ("set", "s")]]⟩
        ⟨some [.dict [("name", "n")]], 0⟩ ∧
    (load_and_validate_data 10 []
        ⟨0, false, false, .arrayPayload
          [.dict [("name", "n"), ("type", "t"), ("set", "s")]]⟩
        ⟨some [.dict [("name", "n")]], 0⟩).networkCalls = 1 ∧
    ∀ items, (⟨0, false, false, .arrayPayload
          [.dict [("name", "n"), ("type", "t"), ("set", "s")]]⟩ :
        FetchEnv).api = .arrayPayload items →
      (⟨0, false, false, .arrayPayload
          [.dict [("name", "n"), ("type", "t"), ("set", "s")]]⟩ :
        FetchEnv).saveOk = false →
      (load_and_validate_data 10 []
          ⟨0, false, false, .arrayPayload
            [.dict [("name", "n"), ("type", "t"), ("set", "s")]]⟩
          ⟨some [.dict [("name", "n")]], 0⟩).result =
        .error (.cacheError "Error saving to cache file") :=
  cache_read_error_falls_through_write_error_propagates 10 []
    ⟨0, false, false, .arrayPayload
      [.dict [("name", "n"), ("type", "t"), ("set", "s")]]⟩
    ⟨some [.dict [("name", "n")]], 0⟩ rfl

/-- C9: on a non-empty segment, whitespace-only (or empty) OCR text
yields the sentinel "Unknown Card", while an unavailable OCR backend
yields "Error: Tesseract Not Found", a value distinct from the empty-text
sentinel — the two conditions are kept separate. -/
theorem identify_card_name_sentinels (n : Nat) (raw : String)
    (hn : n ≠ 0) (hws : pyStrip raw = "") :
    identify_card_name n (.text raw) = "Unknown Card" ∧
    identify_card_name n .tesseractNotFound =
      "Error: Tesseract Not Found" ∧
    identify_card_name n .tesseractNotFound ≠
      identify_card_name n (.text raw) := by
  have h1 : identify_card_name n (.text raw) = "Unknown Card" := by
    simp [identify_card_name, hn, hws]
  have h2 : identify_card_name n .tesseractNotFound =
      "Error: Tesseract Not Found" := by
    simp [identify_card_name, hn]
  refine ⟨h1, h2, ?_⟩
  rw [h1, h2]
  decide

/-- Witness for C9 on a 4-pixel segment whose OCR output is whitespace. -/
theorem identify_card_name_sentinels_witness :
    identify_card_name 4 (.text " \t ") = "Unknown Card" ∧
    identify_card_name 4 .tesseractNotFound =
      "Error: Tesseract Not Found" ∧
    identify_card_name 4 .tesseractNotFound ≠
      identify_card_name 4 (.text " \t ") :=
  identify_card_name_sentinels 4 " \t " (by decide) (by decide)

/-- Underscore collapsing only ever emits characters of its input. -/
theorem collapseAux_subset :
    ∀ (l : List Char) (prev : Bool), collapseAux prev l ⊆ l := by
  intro l
  induction l with
  | nil => intro prev; simp [collapseAux]
  | cons c rest ih =>
    intro prev x hx
    cases hc : c == '_' with
    | true =>
      have hceq : c = '_' := by simpa using hc
      cases prev with
      | true =>
        simp only [collapseAux, hc, if_true] at hx
        exact List.mem_cons_of_mem c (ih true hx)
      | false =>
        simp only [collapseAux, hc, if_true, if_false] at hx
        rcases List.mem_cons.mp hx with h1 | h2
        · subst h1; rw [hceq]; exact List.mem_cons_self _ _
        · exact List.mem_cons_of_mem c (ih true h2)
    | false =>
      simp only [collapseAux, hc, Bool.false_eq_true, if_false] at hx
      rcases List.mem_cons.mp hx with h1 | h2
      · subst h1; exact List.mem_cons_self _ _
      · exact List.mem_cons_of_mem c (ih false h2)

/-- After an underscore was just emitted, the next character the
collapser emits is never an underscore. -/
theorem collapseAux_head_ne :
    ∀ (l : List Char) (c : Char),
      (collapseAux true l).head? = some c → c ≠ '_' := by
  intro l
  induction l with
  | nil => intro c h; simp [collapseAux] at h
  | cons a rest ih =>
    intro c h
    cases ha : a == '_' with
    | true =>
      simp only [collapseAux, ha, if_true] at h
      exact ih c h
    | false =>
      simp only [collapseAux, ha, Bool.false_eq_true, if_false,
        List.head?_cons, Option.some.injEq] at h
      subst h
      simpa using ha

/-- The collapser's output never contains two adjacent underscores. -/
theorem collapseAux_chain :
    ∀ (l : List Char) (prev : Bool),
      List.Chain' (fun a b => ¬(a = '_' ∧ b = '_'))
        (collapseAux prev l) := by
  intro l
  induction l with
  | nil => intro prev; simp [collapseAux]
  | cons c rest ih =>
    intro prev
    cases hc : c == '_' with
    | true =>
      cases prev with
      | true =>
        simp only [collapseAux, hc, if_true]
        exact ih true
      | false =>
        simp only [collapseAux, hc, if_true, Bool.false_eq_true, if_false]
        rw [List.chain'_cons']
        refine ⟨fun b hb => ?_, ih true⟩
        have hbne := collapseAux_head_ne rest b hb
        exact fun hand => hbne hand.2
    | false =>
      have hcne : c ≠ '_' := by simpa using hc
      simp only [collapseAux, hc, Bool.false_eq_true, if_false]
      rw [List.chain'_cons']
      refine ⟨fun b hb => fun hand => hcne hand.1, ih false⟩

/-- Stripping characters from both ends yields a contiguous part of the
input. -/
theorem stripEnds_contiguous (l : List Char) : stripEnds l <:+: l := by
  have h1 : l.dropWhile stripSetChar <:+ l := List.dropWhile_suffix _
  have h2 : (l.dropWhile stripSetChar).reverse.dropWhile stripSetChar <:+
      (l.dropWhile stripSetChar).reverse := List.dropWhile_suffix _
  have h3 : stripEnds l <+: l.dropWhile stripSetChar := by
    unfold stripEnds
    exact List.reverse_suffix.mp (by simpa using h2)
  exact (h3.isInfix).trans (h1.isInfix)

/-- Every character of the first substitution pass is in the allowed
class `[a-zA-Z0-9_.-]`. -/
theorem replaceDisallowed_allowed (l : List Char) :
    ∀ c ∈ replaceDisallowed l, allowedFilenameChar c = true := by
  intro c hc
  obtain ⟨x, hx, hfx⟩ := List.mem_map.mp hc
  by_cases hax : allowedFilenameChar x = true
  · rw [← hfx, if_pos hax]; exact hax
  · rw [← hfx, if_neg hax]; rfl

/-- C10: for every input, `sanitize_filename` returns a non-empty string
of at most 200 characters made only of ASCII alphanumerics, underscore,
dot and hyphen, with no two consecutive underscores; and an input whose
sanitised core is empty yields the default "invalid_name". -/
theorem sanitize_filename_spec (s : String) :
    (sanitize_filename s).length ≤ MAX_FILENAME_LENGTH ∧
    sanitize_filename s ≠ "" ∧
    (∀ c ∈ (sanitize_filename s).toList, allowedFilenameChar c = true) ∧
    List.Chain' (fun a b => ¬(a = '_' ∧ b = '_'))
      (sanitize_filename s).toList ∧
    (stripEnds (collapseUnderscores (replaceDisallowed s.toList)) = [] →
      sanitize_filename s = "invalid_name") := by
  have hchain2 : List.Chain' (fun a b => ¬(a = '_' ∧ b = '_'))
      (collapseUnderscores (replaceDisallowed s.toList)) :=
    collapseAux_chain (replaceDisallowed s.toList) false
  have hchain3 : List.Chain' (fun a b => ¬(a = '_' ∧ b = '_'))
      (stripEnds (collapseUnderscores (replaceDisallowed s.toList))) :=
    List.Chain'.infix hchain2
      (stripEnds_contiguous (collapseUnderscores (replaceDisallowed s.toList)))
  have hsub3 : stripEnds (collapseUnderscores (replaceDisallowed s.toList)) ⊆
      replaceDisallowed s.toList :=
    fun c hc =>
      collapseAux_subset (replaceDisallowed s.toList) false
        ((stripEnds_contiguous _).subset hc)
  have hname : ∀ c ∈ ("invalid_name".toList : List Char),
      allowedFilenameChar c = true := by decide
  have hnamechain : List.Chain' (fun a b => ¬(a = '_' ∧ b = '_'))
      ("invalid_name".toList : List Char) := by
    show List.Chain' (fun a b => ¬(a = '_' ∧ b = '_'))
      ['i', 'n', 'v', 'a', 'l', 'i', 'd', '_', 'n', 'a', 'm', 'e']
    simp [List.chain'_cons]
  cases hempty : (stripEnds (collapseUnderscores
      (replaceDisallowed s.toList))).isEmpty with
  | true =>
    have hs : sanitize_filename s = "invalid_name" := by
      simp only [sanitize_filename, hempty, if_true]
      rfl
    refine ⟨?_, ?_, ?_, ?_, fun _ => hs⟩
    · rw [hs]; decide
    · rw [hs]; decide
    · rw [hs]; exact hname
    · rw [hs]; exact hnamechain
  | false =>
    have h3ne : stripEnds (collapseUnderscores
        (replaceDisallowed s.toList)) ≠ [] := by
      simpa [List.isEmpty_iff] using hempty
    have hs : sanitize_filename s = String.mk
        ((stripEnds (collapseUnderscores
          (replaceDisallowed s.toList))).take MAX_FILENAME_LENGTH) := by
      simp only [sanitize_filename, hempty, Bool.false_eq_true, if_false]
    refine ⟨?_, ?_, ?_, ?_, fun h => absurd h h3ne⟩
    · rw [hs]
      show (List.take MAX_FILENAME_LENGTH _).length ≤ MAX_FILENAME_LENGTH
      exact List.length_take_le _ _
    · rw [hs]
      intro hcontra
      have hdata : (stripEnds (collapseUnderscores
          (replaceDisallowed s.toList))).take MAX_FILENAME_LENGTH =
          ([] : List Char) := congrArg String.data hcontra
      rcases List.take_eq_nil_iff.mp hdata with h | h
      · exact absurd h (by decide)
      · exact h3ne h
    · rw [hs]
      intro c hc
      have hc2 : c ∈ stripEnds (collapseUnderscores
          (replaceDisallowed s.toList)) :=
        List.take_subset _ _ hc
      exact replaceDisallowed_allowed s.toList c (hsub3 hc2)
    · rw [hs]
      exact List.Chain'.take hchain3 _

/-- Witness for C10 at a concrete input string. -/
theorem sanitize_filename_spec_witness :
    (sanitize_filename "a//b__c!").length ≤ MAX_FILENAME_LENGTH ∧
    sanitize_filename "a//b__c!" ≠ "" ∧
    (∀ c ∈ (sanitize_filename "a//b__c!").toList,
      allowedFilenameChar c = true) ∧
    List.Chain' (fun a b => ¬(a = '_' ∧ b = '_'))
      (sanitize_filename "a//b__c!").toList ∧
    (stripEnds (collapseUnderscores
        (replaceDisallowed "a//b__c!".toList)) = [] →
      sanitize_filename "a//b__c!" = "invalid_name") :=
  sanitize_filename_spec "a//b__c!"

end GlimmerGrabber
